import Mathlib

/-!
# Verification of `src/secrets.example.h`

The repository consists of a single C header file, `secrets.example.h`,
holding placeholder Wi-Fi credentials and a webhook URL as preprocessor
string constants.  We embed the file as its list of text lines and model
the relevant fragment of the C preprocessor: recognition of comment,
blank and directive lines, parsing of `#define NAME "literal"` lines,
token emission to the compiler proper, and the `#pragma once`
include-once discipline.
-/

/-- The text of `src/secrets.example.h`, line by line. -/
def secretsExampleH : List String :=
  [ "// secrets.example.h"
  , "// Copy to secrets.h and fill in your real credentials. Do NOT commit secrets.h to source control."
  , ""
  , "#pragma once"
  , ""
  , "// Wi-Fi credentials"
  , "#define WIFI_SSID \"YOUR_WIFI_SSID\""
  , "#define WIFI_PASS \"YOUR_WIFI_PASSWORD\""
  , ""
  , "// Webhook URL to call when water is detected"
  , "#define WEBHOOK_URL \"https://maker.ifttt.com/trigger/water_detected/with/key/YOUR_IFTTT_KEY\"" ]

/-- Strip a concrete prefix from a character list; `none` when the list
does not start with that prefix. -/
def dropPrefixChars : List Char → List Char → Option (List Char)
  | [], s => some s
  | _ :: _, [] => none
  | p :: ps, c :: cs => if c = p then dropPrefixChars ps cs else none

/-- Split a character list at its first space: the part before the first
space and the part after it.  When there is no space, the whole list is
returned with an empty remainder. -/
def splitAtSpace : List Char → List Char × List Char
  | [] => ([], [])
  | c :: cs =>
      if c = ' ' then ([], cs)
      else
        let r := splitAtSpace cs
        (c :: r.1, r.2)

/-- Strip a leading and a trailing double quote from a character list,
yielding the contents of the string literal; `none` when the list is not
a quoted literal. -/
def stripQuotes : List Char → Option (List Char)
  | [] => none
  | c :: rest =>
      if c = '"' ∧ rest.getLast? = some '"' then some rest.dropLast else none

/-- Parse one header line as a `#define NAME "literal"` directive,
returning the macro name and the literal contents. -/
def parseDefineChars (l : List Char) : Option (String × String) :=
  match dropPrefixChars ("#define ").data l with
  | none => none
  | some rest =>
      let p := splitAtSpace rest
      if p.1 = [] then none
      else
        match stripQuotes p.2 with
        | some v => some (String.mk p.1, String.mk v)
        | none => none

/-- Parse one header line as a string-constant definition. -/
def parseDefine (line : String) : Option (String × String) :=
  parseDefineChars line.data

/-- All string-constant definitions of a file, in order of appearance. -/
def defines (file : List String) : List (String × String) :=
  file.filterMap parseDefine

/-- The names of the string constants a file defines, in order. -/
def declaredNames (file : List String) : List String :=
  (defines file).map Prod.fst

/-- Look a macro name up in a definition table (first match wins, as the
preprocessor reports the first definition). -/
def lookupName (n : String) : List (String × String) → Option String
  | [] => none
  | (k, v) :: rest => if k = n then some v else lookupName n rest

/-- The value a file defines for a macro name, when any. -/
def definedValue (file : List String) (name : String) : Option String :=
  lookupName name (defines file)

/-- Does a character list start with the given pattern? -/
def startsWithChars : List Char → List Char → Bool
  | [], _ => true
  | _ :: _, [] => false
  | p :: ps, c :: cs => p = c && startsWithChars ps cs

/-- Does a character list contain the pattern as a contiguous substring? -/
def containsChars (pat : List Char) : List Char → Bool
  | [] => pat.isEmpty
  | c :: cs => startsWithChars pat (c :: cs) || containsChars pat cs

/-- A `//` comment line. -/
def isCommentLine (l : String) : Bool :=
  startsWithChars ("//").data l.data

/-- A blank line. -/
def isBlankLine (l : String) : Bool :=
  l.data.isEmpty

/-- A preprocessor directive line (starts with `#`). -/
def isDirectiveLine (l : String) : Bool :=
  startsWithChars ("#").data l.data

/-- The `#pragma once` include guard line. -/
def isPragmaOnce (l : String) : Bool :=
  l = "#pragma once"

/-- Does the file carry a `#pragma once` include guard? -/
def hasPragmaOnce (file : List String) : Bool :=
  file.any isPragmaOnce

/-- A line that hands tokens to the compiler proper: neither a comment,
nor blank, nor a preprocessor directive. -/
def emitsCode (line : String) : Bool :=
  !(isCommentLine line || isBlankLine line || isDirectiveLine line)

/-- State of a translation unit while the preprocessor runs: the macro
table built so far, the token lines emitted to the compiler proper, and
whether the header has already been marked include-once. -/
structure IncState where
  table : List (String × String)
  emitted : List String
  onceMarked : Bool
deriving Repr, DecidableEq

/-- The state of a translation unit before any inclusion. -/
def initIncState : IncState :=
  { table := [], emitted := [], onceMarked := false }

/-- Effect of one `#include` of the file on the translation unit: a file
already marked include-once is skipped entirely; otherwise its
definitions extend the macro table, its code-emitting lines are emitted,
and the file becomes marked when it carries `#pragma once`. -/
def includeOnce (file : List String) (st : IncState) : IncState :=
  if st.onceMarked then st
  else
    { table := st.table ++ defines file
    , emitted := st.emitted ++ file.filter emitsCode
    , onceMarked := hasPragmaOnce file }

/-- The translation-unit state after `n` successive inclusions of the
file. -/
def includeN (file : List String) : Nat → IncState
  | 0 => initIncState
  | n + 1 => includeOnce file (includeN file n)

/-- The text of a `#define NAME "literal"` line for a given name and
literal contents. -/
def mkDefineLine (name v : String) : String :=
  "#define " ++ name ++ " \"" ++ v ++ "\""

/-- Replace the literal of the constant `name` by `v`, keeping every
other line of the file as it stands. -/
def setDefine (file : List String) (name v : String) : List String :=
  file.map fun l =>
    match parseDefine l with
    | some p => if p.1 = name then mkDefineLine name v else l
    | none => l

/-- The trigger segment of an IFTTT maker-webhook URL: the path segment
that follows `https://maker.ifttt.com/trigger/`. -/
def triggerOf (url : String) : Option String :=
  match dropPrefixChars ("https://maker.ifttt.com/trigger/").data url.data with
  | none => none
  | some rest => some (String.mk (rest.takeWhile (fun c => c ≠ '/')))

/-- The three macro names the header is expected to define. -/
def theNames : List String :=
  ["WIFI_SSID", "WIFI_PASS", "WEBHOOK_URL"]

/-!
## Helper lemmas about the preprocessor model
-/

theorem dropPrefixChars_append (p s : List Char) :
    dropPrefixChars p (p ++ s) = some s := by
  induction p with
  | nil => rfl
  | cons c cs ih => simp [dropPrefixChars, ih]

theorem splitAtSpace_no_space (n r : List Char) (h : ' ' ∉ n) :
    splitAtSpace (n ++ ' ' :: r) = (n, r) := by
  induction n with
  | nil => simp [splitAtSpace]
  | cons c cs ih =>
      simp only [List.mem_cons, not_or] at h
      simp [splitAtSpace, Ne.symm h.1, ih h.2]

theorem stripQuotes_wrap (v : List Char) :
    stripQuotes ('"' :: (v ++ ['"'])) = some v := by
  simp [stripQuotes, List.getLast?_concat, List.dropLast_concat]

theorem mkDefineLine_data (name v : String) :
    (mkDefineLine name v).data =
      ("#define ").data ++ (name.data ++ (' ' :: '"' :: (v.data ++ ['"']))) := by
  simp [mkDefineLine, String.data_append, List.append_assoc]

/-- Parsing a freshly written `#define` line recovers exactly the name
and the literal contents, for any name without spaces. -/
theorem parseDefine_mkDefineLine (name v : String)
    (h1 : ' ' ∉ name.data) (h2 : name.data ≠ []) :
    parseDefine (mkDefineLine name v) = some (name, v) := by
  unfold parseDefine parseDefineChars
  rw [mkDefineLine_data, dropPrefixChars_append]
  simp only [splitAtSpace_no_space name.data _ h1]
  simp [h2, stripQuotes_wrap]

theorem parseDefine_comment1 : parseDefine "// secrets.example.h" = none := rfl

theorem parseDefine_comment2 :
    parseDefine "// Copy to secrets.h and fill in your real credentials. Do NOT commit secrets.h to source control." = none := rfl

theorem parseDefine_blank : parseDefine "" = none := rfl

theorem parseDefine_pragma : parseDefine "#pragma once" = none := rfl

theorem parseDefine_comment3 : parseDefine "// Wi-Fi credentials" = none := rfl

theorem parseDefine_comment4 :
    parseDefine "// Webhook URL to call when water is detected" = none := rfl

theorem parseDefine_ssidLine :
    parseDefine "#define WIFI_SSID \"YOUR_WIFI_SSID\"" =
      some ("WIFI_SSID", "YOUR_WIFI_SSID") := rfl

theorem parseDefine_passLine :
    parseDefine "#define WIFI_PASS \"YOUR_WIFI_PASSWORD\"" =
      some ("WIFI_PASS", "YOUR_WIFI_PASSWORD") := rfl

theorem parseDefine_urlLine :
    parseDefine "#define WEBHOOK_URL \"https://maker.ifttt.com/trigger/water_detected/with/key/YOUR_IFTTT_KEY\"" =
      some ("WEBHOOK_URL", "https://maker.ifttt.com/trigger/water_detected/with/key/YOUR_IFTTT_KEY") := rfl

theorem setDefine_ssid_eq (v : String) :
    setDefine secretsExampleH "WIFI_SSID" v =
      [ "// secrets.example.h"
      , "// Copy to secrets.h and fill in your real credentials. Do NOT commit secrets.h to source control."
      , ""
      , "#pragma once"
      , ""
      , "// Wi-Fi credentials"
      , mkDefineLine "WIFI_SSID" v
      , "#define WIFI_PASS \"YOUR_WIFI_PASSWORD\""
      , ""
      , "// Webhook URL to call when water is detected"
      , "#define WEBHOOK_URL \"https://maker.ifttt.com/trigger/water_detected/with/key/YOUR_IFTTT_KEY\"" ] := rfl

theorem setDefine_pass_eq (v : String) :
    setDefine secretsExampleH "WIFI_PASS" v =
      [ "// secrets.example.h"
      , "// Copy to secrets.h and fill in your real credentials. Do NOT commit secrets.h to source control."
      , ""
      , "#pragma once"
      , ""
      , "// Wi-Fi credentials"
      , "#define WIFI_SSID \"YOUR_WIFI_SSID\""
      , mkDefineLine "WIFI_PASS" v
      , ""
      , "// Webhook URL to call when water is detected"
      , "#define WEBHOOK_URL \"https://maker.ifttt.com/trigger/water_detected/with/key/YOUR_IFTTT_KEY\"" ] := rfl

theorem setDefine_url_eq (v : String) :
    setDefine secretsExampleH "WEBHOOK_URL" v =
      [ "// secrets.example.h"
      , "// Copy to secrets.h and fill in your real credentials. Do NOT commit secrets.h to source control."
      , ""
      , "#pragma once"
      , ""
      , "// Wi-Fi credentials"
      , "#define WIFI_SSID \"YOUR_WIFI_SSID\""
      , "#define WIFI_PASS \"YOUR_WIFI_PASSWORD\""
      , ""
      , "// Webhook URL to call when water is detected"
      , mkDefineLine "WEBHOOK_URL" v ] := rfl

theorem defines_setDefine_ssid (v : String) :
    defines (setDefine secretsExampleH "WIFI_SSID" v) =
      [ ("WIFI_SSID", v)
      , ("WIFI_PASS", "YOUR_WIFI_PASSWORD")
      , ("WEBHOOK_URL", "https://maker.ifttt.com/trigger/water_detected/with/key/YOUR_IFTTT_KEY") ] := by
  have h := parseDefine_mkDefineLine "WIFI_SSID" v (by decide) (by decide)
  rw [setDefine_ssid_eq]
  simp [defines, List.filterMap_cons, h, parseDefine_comment1, parseDefine_comment2,
    parseDefine_blank, parseDefine_pragma, parseDefine_comment3, parseDefine_comment4,
    parseDefine_passLine, parseDefine_urlLine]

theorem defines_setDefine_pass (v : String) :
    defines (setDefine secretsExampleH "WIFI_PASS" v) =
      [ ("WIFI_SSID", "YOUR_WIFI_SSID")
      , ("WIFI_PASS", v)
      , ("WEBHOOK_URL", "https://maker.ifttt.com/trigger/water_detected/with/key/YOUR_IFTTT_KEY") ] := by
  have h := parseDefine_mkDefineLine "WIFI_PASS" v (by decide) (by decide)
  rw [setDefine_pass_eq]
  simp [defines, List.filterMap_cons, h, parseDefine_comment1, parseDefine_comment2,
    parseDefine_blank, parseDefine_pragma, parseDefine_comment3, parseDefine_comment4,
    parseDefine_ssidLine, parseDefine_urlLine]

theorem defines_setDefine_url (v : String) :
    defines (setDefine secretsExampleH "WEBHOOK_URL" v) =
      [ ("WIFI_SSID", "YOUR_WIFI_SSID")
      , ("WIFI_PASS", "YOUR_WIFI_PASSWORD")
      , ("WEBHOOK_URL", v) ] := by
  have h := parseDefine_mkDefineLine "WEBHOOK_URL" v (by decide) (by decide)
  rw [setDefine_url_eq]
  simp [defines, List.filterMap_cons, h, parseDefine_comment1, parseDefine_comment2,
    parseDefine_blank, parseDefine_pragma, parseDefine_comment3, parseDefine_comment4,
    parseDefine_ssidLine, parseDefine_passLine]

/-!
## Claims
-/

/-- C1: The header defines exactly three compile-time string constants —
`WIFI_SSID`, `WIFI_PASS` and `WEBHOOK_URL` — and defines no other
constants: the string-constant definitions found in the file carry
exactly these three names, and every `#define` line of the file is one of
these string-constant definitions. -/
theorem secrets_defines_exactly_three :
    declaredNames secretsExampleH = ["WIFI_SSID", "WIFI_PASS", "WEBHOOK_URL"] ∧
      (secretsExampleH.all fun l =>
        !startsWithChars ("#define").data l.data || (parseDefine l).isSome) = true :=
  ⟨rfl, rfl⟩

/-- C2: Each of the three named constants is defined as a string
literal: looking each name up in the table of string-literal definitions
the header yields succeeds. -/
theorem each_name_defined_as_string_literal :
    (theNames.all fun n => (definedValue secretsExampleH n).isSome) = true := rfl

/-- C3: Every constant the header defines has a non-empty string literal
as its value. -/
theorem all_values_nonempty :
    ((defines secretsExampleH).all fun p => !p.2.data.isEmpty) = true := rfl

/-- C4: The header contains no executable behavior: none of its lines
hands tokens to the compiler proper, and including it leaves the emitted
token stream of the translation unit unchanged from any starting state —
only the macro table can change. -/
theorem include_emits_nothing (st : IncState) :
    (includeOnce secretsExampleH st).emitted = st.emitted ∧
      secretsExampleH.filter emitsCode = [] := by
  refine ⟨?_, rfl⟩
  unfold includeOnce
  by_cases h : st.onceMarked
  · simp [h]
  · simp only [h, if_false, Bool.false_eq_true]
    rw [show secretsExampleH.filter emitsCode = [] from rfl]
    simp

/-- C5: The `WEBHOOK_URL` constant's value is an IFTTT-style trigger
endpoint: it begins with `https://maker.ifttt.com/trigger/`, and the
path segment after that prefix — the trigger name — is
`water_detected`. -/
theorem webhook_is_ifttt_trigger :
    definedValue secretsExampleH "WEBHOOK_URL" =
        some "https://maker.ifttt.com/trigger/water_detected/with/key/YOUR_IFTTT_KEY" ∧
      startsWithChars ("https://maker.ifttt.com/trigger/").data
        ("https://maker.ifttt.com/trigger/water_detected/with/key/YOUR_IFTTT_KEY").data = true ∧
      triggerOf "https://maker.ifttt.com/trigger/water_detected/with/key/YOUR_IFTTT_KEY" =
        some "water_detected" :=
  ⟨rfl, rfl, rfl⟩

/-- C6: The source is a single 11-line header whose content is the
placeholder Wi-Fi credentials and the webhook URL template: every line
is a comment, a blank line, the `#pragma once` include guard, or one of
the three placeholder `#define` lines, and nothing else. -/
theorem file_is_placeholder_template :
    secretsExampleH.length = 11 ∧
      (secretsExampleH.all fun l =>
        isCommentLine l || isBlankLine l || isPragmaOnce l ||
          l == "#define WIFI_SSID \"YOUR_WIFI_SSID\"" ||
          l == "#define WIFI_PASS \"YOUR_WIFI_PASSWORD\"" ||
          l == "#define WEBHOOK_URL \"https://maker.ifttt.com/trigger/water_detected/with/key/YOUR_IFTTT_KEY\"") = true :=
  ⟨rfl, rfl⟩

/-- C7: The three constant definitions are independent: replacing the
literal of any one of the three constants with an arbitrary string
leaves the value of each of the other two constants unchanged. -/
theorem setDefine_preserves_others (v : String) (nm other : String)
    (hnm : nm ∈ theNames) (hother : other ∈ theNames) (hne : other ≠ nm) :
    definedValue (setDefine secretsExampleH nm v) other =
      definedValue secretsExampleH other := by
  simp only [theNames, List.mem_cons, List.not_mem_nil, or_false] at hnm hother
  rcases hnm with rfl | rfl | rfl <;> rcases hother with rfl | rfl | rfl <;>
    first
      | exact absurd rfl hne
      | (show lookupName _ (defines (setDefine secretsExampleH _ v)) = _
         rw [defines_setDefine_ssid]; rfl)
      | (show lookupName _ (defines (setDefine secretsExampleH _ v)) = _
         rw [defines_setDefine_pass]; rfl)
      | (show lookupName _ (defines (setDefine secretsExampleH _ v)) = _
         rw [defines_setDefine_url]; rfl)

/-- Witness for C7 at a concrete replacement: refilling the SSID leaves
the webhook URL unchanged. -/
theorem setDefine_preserves_others_witness :
    definedValue (setDefine secretsExampleH "WIFI_SSID" "home-network-5G") "WEBHOOK_URL" =
      definedValue secretsExampleH "WEBHOOK_URL" :=
  setDefine_preserves_others "home-network-5G" "WIFI_SSID" "WEBHOOK_URL"
    (by decide) (by decide) (by decide)

/-- C8: Inclusion is idempotent thanks to `#pragma once`: including the
header any positive number of times leaves the translation unit in
exactly the state one inclusion produces. -/
theorem include_idempotent (n : Nat) (h : 1 ≤ n) :
    includeN secretsExampleH n = includeN secretsExampleH 1 := by
  induction n with
  | zero => exact absurd h (by decide)
  | succ k ih =>
      cases k with
      | zero => rfl
      | succ m =>
          have hk : includeN secretsExampleH (m + 1) = includeN secretsExampleH 1 :=
            ih (Nat.succ_le_succ (Nat.zero_le m))
          show includeOnce secretsExampleH (includeN secretsExampleH (m + 1)) =
            includeN secretsExampleH 1
          rw [hk]
          rfl

/-- Witness for C8: three inclusions equal one. -/
theorem include_idempotent_witness :
    includeN secretsExampleH 3 = includeN secretsExampleH 1 :=
  include_idempotent 3 (by decide)

/-- C9: Every value shipped in the template carries the `YOUR_`
placeholder marker as a substring, so the committed template holds no
real credential value. -/
theorem all_values_marked_placeholder :
    ((defines secretsExampleH).all fun p =>
      containsChars ("YOUR_").data p.2.data) = true := rfl

/-- C10: Each of the three macro names is defined exactly once in the
header, and the three names are pairwise distinct: the list of declared
names has no duplicate, and each expected name occurs in it exactly
once. -/
theorem names_defined_once_and_distinct :
    (declaredNames secretsExampleH).Nodup ∧
      (declaredNames secretsExampleH).count "WIFI_SSID" = 1 ∧
      (declaredNames secretsExampleH).count "WIFI_PASS" = 1 ∧
      (declaredNames secretsExampleH).count "WEBHOOK_URL" = 1 := by
  refine ⟨by decide, rfl, rfl, rfl⟩
